import Mathlib

/-!
Verification development for the Glue private DevEndpoint / SageMaker
notebook bootstrap script (`bootstrap.py`).

The script is embedded shallowly: the mutable world (local files, tunnel,
remote endpoint registry, notebook tags) is a Lean structure `St`, and each
Python function becomes a Lean function in a state monad `M` that also
accumulates a trace of observable side effects (`Event` list) and models
Python exceptions with an `Except`-style result.  Python's `try/except`
keeps all mutations performed before the exception, so the error case of
`M` also carries the state reached so far.

External collaborators (the remote Glue endpoint registry, the HTTP probe,
the filesystem) are represented by oracle fields inside `St`: a boolean
oracle decides whether a given I/O operation succeeds, and the remote
endpoint set is an association list mutated by the update calls.
-/

/-- Python string containment (`needle in hay`) on character lists. -/
def pyInL (needle : List Char) : List Char → Bool
  | [] => needle.isPrefixOf []
  | c :: t => needle.isPrefixOf (c :: t) || pyInL needle t

/-- Python string containment (`needle in hay`). -/
def pyIn (needle hay : String) : Bool :=
  pyInL needle.data hay.data

/-- Python truthiness of a string (`""` is falsy). -/
def pyTruthyS (s : String) : Bool := !s.data.isEmpty

/-- Python truthiness of an optional string (`None` and `""` are falsy). -/
def pyFalsy : Option String → Bool
  | none => true
  | some s => s.data.isEmpty

/-- A remote Glue DevEndpoint as seen through the API fields the script
reads: the legacy singular `PublicKey`, the plural `PublicKeys`,
`LastUpdateStatus` (absent, COMPLETED, FAILED or an in-progress value) and
the two addresses. -/
structure DevEndpoint where
  publicKey : Option String := none
  publicKeys : List String := []
  lastUpdateStatus : Option String := none
  privateAddress : Option String := none
  publicAddress : Option String := none
deriving DecidableEq

/-- Python exception kinds the script can raise or observe. -/
inductive Err
  | ioError
  | valueError
  | connectionError
  | entityNotFound
  | keyError
  | keygenError
deriving DecidableEq

/-- Observable side effects of the script, in execution order. -/
inductive Event
  | saveBinding (n : String)
  | removeBinding (n : String)
  | listTags
  | getDevEndpoint (n : String)
  | updateAddKeys (n : String) (ks : List String)
  | updateDeleteKeys (n : String) (ks : List String)
  | addTags (v : String)
  | stopTunnel
  | startTunnel
  | keygen
  | pingLivy
  | writeAutosshHost (a : String)
  | logWarn (t : String)
  | logError (t : String)
deriving DecidableEq

/-- The world state: local files on the notebook instance, the tunnel, the
remote endpoint directory, and I/O oracles deciding which file operations
succeed.  `binding` is the content of the `current_dev_endpoint` file
(`none` means the file is absent). -/
structure St where
  notebookName : String
  endpoints : List (String × DevEndpoint) := []
  binding : Option String := none
  tunnelOn : Bool := false
  livyUp : Bool := false
  connTag : Option String := none
  glueTag : Option String := none
  pubKeyFile : Option String := none
  autosshHostFile : String := ""
  freshKeyBody : String := "ssh-rsa AAAA"
  bindingReadOk : Bool := true
  bindingWriteOk : Bool := true
  bindingRemoveOk : Bool := true
  keyReadOk : Bool := true
  hostReadOk : Bool := true
  hostWriteOk : Bool := true
  keygenOk : Bool := true
  tagWriteOk : Bool := true
deriving DecidableEq

/-- The script monad: state plus an effect trace plus Python exceptions.
The error case keeps the state reached when the exception was raised, and
the trace of a sequence is the concatenation of the traces of its parts. -/
def M (α : Type) : Type :=
  St → Except Err α × St × List Event

instance instMonadM : Monad M where
  pure a := fun s => (.ok a, s, [])
  bind x f := fun s =>
    match x s with
    | (.ok a, s1, t1) =>
      match f a s1 with
      | (r, s2, t2) => (r, s2, t1 ++ t2)
    | (.error e, s1, t1) => (.error e, s1, t1)

/-- Read the current state. -/
def getS : M St := fun s => (.ok s, s, [])

/-- Replace the current state. -/
def modifyS (f : St → St) : M Unit := fun s => (.ok (), f s, [])

/-- Raise a Python exception. -/
def throwE {α : Type} (e : Err) : M α := fun s => (.error e, s, [])

/-- Record an observable side effect. -/
def emit (e : Event) : M Unit := fun s => (.ok (), s, [e])

/-- Python `try ... except Exception`: the handler starts from the state
reached when the exception was raised. -/
def catchAll {α : Type} (x : M α) (h : Err → M α) : M α := fun s =>
  match x s with
  | (.ok a, s1, t1) => (.ok a, s1, t1)
  | (.error e, s1, t1) =>
    match h e s1 with
    | (r, s2, t2) => (r, s2, t1 ++ t2)

/-- Result part of a run. -/
def runRes {α : Type} (m : M α) (s : St) : Except Err α := (m s).1

/-- Final state of a run (also defined when an exception escaped). -/
def runSt {α : Type} (m : M α) (s : St) : St := (m s).2.1

/-- Effect trace of a run. -/
def runTr {α : Type} (m : M α) (s : St) : List Event := (m s).2.2

/-- Did the run finish without an exception? -/
def isOkB {α : Type} : Except Err α → Bool
  | .ok _ => true
  | .error _ => false

/-- Value of a successful run, if any. -/
def resVal {α : Type} : Except Err α → Option α
  | .ok a => some a
  | .error _ => none

/-! Constants of `bootstrap.py`. -/

def RECONNECT_INTERVAL_IN_SEC : Nat := 300
def SWITCH_INTERVAL_IN_SEC : Nat := 30
def MAX_FAIL_DURATION_IN_HOUR : Nat := 48
def HOUR_IN_SEC : Nat := 3600
def RECONNECT_MAX_FAIL_COUNT : Nat :=
  HOUR_IN_SEC / RECONNECT_INTERVAL_IN_SEC * MAX_FAIL_DURATION_IN_HOUR
def SWITCH_MAX_FAIL_COUNT : Nat :=
  HOUR_IN_SEC / SWITCH_INTERVAL_IN_SEC * MAX_FAIL_DURATION_IN_HOUR
def UPDATE_DEV_ENDPOINT_TIMEOUT_IN_SEC : Nat := 600
def WAIT_DEV_ENDPOINT_READY_INTERVAL_IN_SEC : Nat := 5
def COMPLETED : String := "COMPLETED"
def FAILED : String := "FAILED"

/-! The remote endpoint directory (external collaborator). -/

/-- Look up an endpoint by name in the remote directory. -/
def lookupEp (eps : List (String × DevEndpoint)) (n : String) :
    Option DevEndpoint :=
  match eps with
  | [] => none
  | (m, d) :: t => if m = n then some d else lookupEp t n

/-- Replace the record of endpoint `n` in the remote directory. -/
def setEp (eps : List (String × DevEndpoint)) (n : String)
    (d : DevEndpoint) : List (String × DevEndpoint) :=
  eps.map (fun p => if p.1 = n then (n, d) else p)

/-- Modelled from the spec: the remote UpdateDevEndpoint AddPublicKeys
operation, which the repository only calls; `registeredPublicKeys` has set
semantics, so registration is idempotent. -/
def addKeysRemote (d : DevEndpoint) (ks : List String) : DevEndpoint :=
  { d with publicKeys :=
      d.publicKeys ++ ks.filter (fun k => !(d.publicKeys.contains k)) }

/-- Modelled from the spec: the remote UpdateDevEndpoint DeletePublicKeys
operation, which the repository only calls; set semantics, removing the
named keys from both key fields. -/
def deleteKeysRemote (d : DevEndpoint) (ks : List String) : DevEndpoint :=
  { d with
    publicKeys := d.publicKeys.filter (fun k => !(ks.contains k)),
    publicKey := match d.publicKey with
      | some pk => if ks.contains pk then none else some pk
      | none => none }

/-! File readers and writers of `bootstrap.py`. -/

/-- `get_public_key`: read the notebook public key file; a missing or
unreadable file is an IOError that is logged and re-raised, an empty file
raises ValueError (uncaught). -/
def get_public_key : M String := do
  let s ← getS
  if s.keyReadOk then
    match s.pubKeyFile with
    | some k =>
      if pyTruthyS k then pure k
      else throwE .valueError
    | none => do
      emit (.logError "get_public_key")
      throwE .ioError
  else do
    emit (.logError "get_public_key")
    throwE .ioError

/-- `get_autossh_host`: read the tunnel target file; IOError is logged and
re-raised, empty content raises ValueError (uncaught). -/
def get_autossh_host : M String := do
  let s ← getS
  if s.hostReadOk then
    if pyTruthyS s.autosshHostFile then pure s.autosshHostFile
    else throwE .valueError
  else do
    emit (.logError "get_autossh_host")
    throwE .ioError

/-- `get_current_dev_endpoint`: read the binding file; an IOError is
caught, logged as a warning and turned into `none`. -/
def get_current_dev_endpoint : M (Option String) := do
  let s ← getS
  match s.binding with
  | some v =>
    if s.bindingReadOk then pure (some v)
    else do
      emit (.logWarn "get_current_dev_endpoint")
      pure none
  | none => pure none

/-- `save_current_dev_endpoint`: write the binding file; an IOError is
logged and re-raised. -/
def save_current_dev_endpoint (n : String) : M Unit := do
  let s ← getS
  if s.bindingWriteOk then do
    emit (.saveBinding n)
    modifyS (fun s0 => { s0 with binding := some n })
  else do
    emit (.logError "save_current_dev_endpoint")
    throwE .ioError

/-- `remove_dev_endpoint`: delete the binding file if it exists; an
IOError is logged and re-raised. -/
def remove_dev_endpoint (n : String) : M Unit := do
  let s ← getS
  if s.binding.isSome then
    if s.bindingRemoveOk then do
      emit (.removeBinding n)
      modifyS (fun s0 => { s0 with binding := none })
    else do
      emit (.logError "remove_dev_endpoint")
      throwE .ioError
  else pure ()

/-- `get_latest_dev_endpoint`: read the `aws-glue-dev-endpoint` tag of the
notebook; a missing tag raises ValueError. -/
def get_latest_dev_endpoint : M String := do
  emit .listTags
  let s ← getS
  match s.glueTag with
  | some v => pure v
  | none => throwE .valueError

/-! Remote API wrappers. -/

/-- `glue_client.get_dev_endpoint`: raises if the endpoint is absent. -/
def get_dev_endpoint (n : String) : M DevEndpoint := do
  emit (.getDevEndpoint n)
  let s ← getS
  match lookupEp s.endpoints n with
  | some d => pure d
  | none => throwE .entityNotFound

/-- `glue_client.update_dev_endpoint` with `AddPublicKeys`. -/
def update_dev_endpoint_add (n : String) (ks : List String) : M Unit := do
  emit (.updateAddKeys n ks)
  let s ← getS
  match lookupEp s.endpoints n with
  | some d =>
    modifyS (fun s0 =>
      { s0 with endpoints := setEp s0.endpoints n (addKeysRemote d ks) })
  | none => throwE .entityNotFound

/-- `glue_client.update_dev_endpoint` with `DeletePublicKeys`. -/
def update_dev_endpoint_delete (n : String) (ks : List String) : M Unit := do
  emit (.updateDeleteKeys n ks)
  let s ← getS
  match lookupEp s.endpoints n with
  | some d =>
    modifyS (fun s0 =>
      { s0 with endpoints := setEp s0.endpoints n (deleteKeysRemote d ks) })
  | none => throwE .entityNotFound

/-- `update_connection_tag`: best-effort AddTags; every failure is logged
and swallowed. -/
def update_connection_tag (v : String) : M Unit := do
  let s ← getS
  if s.tagWriteOk then do
    emit (.addTags v)
    modifyS (fun s0 => { s0 with connTag := some v })
  else emit (.logError "update_connection_tag")

/-! The ready-wait state machine (`wait_dev_endpoint_ready`). -/

/-- Outcome of the ready-wait loop. -/
inductive WaitOutcome
  | ready
  | failedStatus
  | timedOut
deriving DecidableEq

/-- One observed `LastUpdateStatus` value is still in progress when it is
present and neither COMPLETED nor FAILED. -/
def isPendingStatus : Option String → Bool
  | some st => !(st = COMPLETED) && !(st = FAILED)
  | none => false

/-- The polling loop of `wait_dev_endpoint_ready`: `obs i` is the
`LastUpdateStatus` field observed at the i-th poll, and the fuel is the
number of polls that fit into the overall timeout.  Absence of the field
or COMPLETED stops the loop normally, FAILED raises, exhausting the budget
is the timeout path. -/
def wait_go (obs : Nat → Option String) : Nat → Nat → WaitOutcome
  | _, 0 => .timedOut
  | i, fuel + 1 =>
    match obs i with
    | none => .ready
    | some st =>
      if st = COMPLETED then .ready
      else if st = FAILED then .failedStatus
      else wait_go obs (i + 1) fuel

/-- `wait_dev_endpoint_ready` on a stream of poll observations, with the
poll budget `600 s / 5 s` from the source constants. -/
def wait_dev_endpoint_ready (obs : Nat → Option String) : WaitOutcome :=
  wait_go obs 0
    (UPDATE_DEV_ENDPOINT_TIMEOUT_IN_SEC / WAIT_DEV_ENDPOINT_READY_INTERVAL_IN_SEC)

/-- `wait_dev_endpoint_ready` inside the world model: the status field of
the endpoint is constant while waiting, so every poll observes the same
value.  FAILED raises ValueError; the timeout path logs an error and
returns normally. -/
def wait_dev_endpoint_ready_st (n : String) : M Unit := do
  let d ← get_dev_endpoint n
  match wait_dev_endpoint_ready (fun _ => d.lastUpdateStatus) with
  | .ready => pure ()
  | .failedStatus => throwE .valueError
  | .timedOut => emit (.logError "wait_ready_timeout")

/-! Tunnel controller and key rotation. -/

/-- `start_autossh`: reads the tunnel target file (its IOError/ValueError
propagate) and starts the tunnel. -/
def start_autossh : M Unit := do
  let _host ← get_autossh_host
  emit .startTunnel
  modifyS (fun s0 => { s0 with tunnelOn := true })

/-- `stop_autossh`: reads the tunnel target file (its IOError/ValueError
propagate) and stops the tunnel. -/
def stop_autossh : M Unit := do
  let _host ← get_autossh_host
  emit .stopTunnel
  modifyS (fun s0 => { s0 with tunnelOn := false })

/-- `ping_livy`: a plain HTTP GET against the local Livy address; a
connection failure raises, and nothing catches it here. -/
def ping_livy : M Unit := do
  emit .pingLivy
  let s ← getS
  if s.livyUp then pure () else throwE .connectionError

/-- `is_dev_endpoint_connected`: the liveness probe; a connection error is
caught and returned as `false`. -/
def is_dev_endpoint_connected : M Bool := do
  emit .pingLivy
  let s ← getS
  pure s.livyUp

/-- `generate_ssh_keypair`: if a keypair exists, read and discard it, then
run ssh-keygen with the notebook name as the key comment, producing a pub
key of the shape `body ++ " " ++ notebookName`. -/
def generate_ssh_keypair : M Unit := do
  let s ← getS
  if s.pubKeyFile.isSome then do
    let _pk ← get_public_key
    emit (.logWarn "removing_current_keypair")
    modifyS (fun s0 => { s0 with pubKeyFile := none })
  else pure ()
  let s1 ← getS
  if s1.keygenOk then do
    emit .keygen
    modifyS (fun s0 =>
      { s0 with pubKeyFile := some (s0.freshKeyBody ++ " " ++ s0.notebookName) })
    let _pk ← get_public_key
    pure ()
  else throwE .keygenError

/-- `add_public_key`: wait ready, register the fresh public key, wait
ready again, then read back the endpoint address (prefer private, missing
public address is a KeyError) and write it to the tunnel target file. -/
def add_public_key (n : String) : M Unit := do
  let public_key ← get_public_key
  wait_dev_endpoint_ready_st n
  update_dev_endpoint_add n [public_key]
  wait_dev_endpoint_ready_st n
  let d ← get_dev_endpoint n
  let addr ←
    match d.privateAddress with
    | some a => pure a
    | none =>
      match d.publicAddress with
      | some a => pure a
      | none => throwE .keyError
  let s ← getS
  if s.hostWriteOk then do
    emit (.writeAutosshHost addr)
    modifyS (fun s0 => { s0 with autosshHostFile := addr })
  else throwE .ioError

/-- The key-selection loop of `delete_public_keys_if_has` (lines 376-383):
the singular `PublicKey` value is appended unconditionally, the plural
`PublicKeys` entries only when they contain the notebook name. -/
def public_keys_to_delete (nb : String) (d : DevEndpoint) : List String :=
  (match d.publicKey with
   | some pk => [pk]
   | none => []) ++
  d.publicKeys.filter (fun k => pyIn nb k)

/-- `delete_public_keys`: wait ready, then delete the given keys (if any)
and wait ready again. -/
def delete_public_keys (n : String) (ks : List String) : M Unit := do
  wait_dev_endpoint_ready_st n
  if !ks.isEmpty then do
    update_dev_endpoint_delete n ks
    wait_dev_endpoint_ready_st n
  else pure ()

/-- `delete_public_keys_if_has`: fetch the endpoint, select this
notebook's keys, delete them; any exception is caught and logged. -/
def delete_public_keys_if_has (n : String) : M Unit :=
  catchAll
    (do
      let d ← get_dev_endpoint n
      let s ← getS
      delete_public_keys n (public_keys_to_delete s.notebookName d))
    (fun _ => emit (.logError "delete_public_keys_if_has"))

/-- `has_public_key`: does the endpoint carry the notebook's current
public key?  The match rule is containment of the full current public key
string inside the registered key. -/
def has_public_key (d : DevEndpoint) : M Bool := do
  let ck ← get_public_key
  if (match d.publicKey with
      | some pk => pyIn ck pk
      | none => false) then pure true
  else pure (d.publicKeys.any (fun k => pyIn ck k))

/-! The connection protocol. -/

/-- `connect_dev_endpoint`. -/
def connect_dev_endpoint (n : String) : M Unit := do
  delete_public_keys_if_has n
  generate_ssh_keypair
  add_public_key n
  start_autossh
  ping_livy
  save_current_dev_endpoint n
  update_connection_tag "ready"

/-- `disconnect_dev_endpoint`: revoke keys, stop the tunnel, best-effort
tag update.  It does not touch the binding file. -/
def disconnect_dev_endpoint (n : String) : M Unit := do
  delete_public_keys_if_has n
  stop_autossh
  update_connection_tag "disconnected"

/-- `reconnect_dev_endpoint`. -/
def reconnect_dev_endpoint (nOpt : Option String) : M Unit := do
  if pyFalsy nOpt then
    emit (.logWarn "current_dev_endpoint_absent")
  else do
    let n := nOpt.getD ""
    let connected ← is_dev_endpoint_connected
    if connected then pure ()
    else do
      let d ← get_dev_endpoint n
      if (isPendingStatus d.lastUpdateStatus) then
        emit (.logWarn "dev_endpoint_updating")
      else do
        let pk_present ← has_public_key d
        if pk_present then do
          stop_autossh
          start_autossh
          let c2 ← is_dev_endpoint_connected
          if c2 then pure ()
          else do
            disconnect_dev_endpoint n
            connect_dev_endpoint n
        else do
          disconnect_dev_endpoint n
          connect_dev_endpoint n

/-! The two reconciler loops. -/

/-- The body of one `reconnect_daemon` tick. -/
def reconnect_tick : M Unit := do
  let cur ← get_current_dev_endpoint
  reconnect_dev_endpoint cur

/-- The body of one `switch_daemon` tick. -/
def switch_tick : M Unit := do
  let cur ← get_current_dev_endpoint
  let latest ← get_latest_dev_endpoint
  if cur = some latest then pure ()
  else do
    if !(pyFalsy cur) then do
      remove_dev_endpoint (cur.getD "")
      disconnect_dev_endpoint (cur.getD "")
    else pure ()
    if pyTruthyS latest then connect_dev_endpoint latest
    else pure ()

/-- The daemon `while failed_count < maxFail` loop, observed after `n`
iterations: `some (s, fc)` means the loop is still alive with state `s`
and failure counter `fc` after executing `n` ticks; `none` means it has
already exited.  A tick that raises is caught at the loop boundary and
increments the counter; a clean tick resets it to zero. -/
def daemon_iter (tick : M Unit) (maxFail : Nat) (s0 : St) :
    Nat → Option (St × Nat)
  | 0 => some (s0, 0)
  | n + 1 =>
    match daemon_iter tick maxFail s0 n with
    | none => none
    | some (s, fc) =>
      if fc < maxFail then
        match tick s with
        | (.ok _, s1, _) => some (s1, 0)
        | (.error _, s1, _) => some (s1, fc + 1)
      else none

/-- `reconnect_daemon` after `n` loop iterations. -/
def reconnect_daemon (s0 : St) (n : Nat) : Option (St × Nat) :=
  daemon_iter reconnect_tick RECONNECT_MAX_FAIL_COUNT s0 n

/-- `switch_daemon` after `n` loop iterations. -/
def switch_daemon (s0 : St) (n : Nat) : Option (St × Nat) :=
  daemon_iter switch_tick SWITCH_MAX_FAIL_COUNT s0 n

/-- An event is a mutation (remote write, tunnel action or local file
write) as opposed to a read, probe or log line. -/
def isMutEvent : Event → Bool
  | .saveBinding _ => true
  | .removeBinding _ => true
  | .updateAddKeys _ _ => true
  | .updateDeleteKeys _ _ => true
  | .addTags _ => true
  | .stopTunnel => true
  | .startTunnel => true
  | .keygen => true
  | .writeAutosshHost _ => true
  | _ => false

/-- Effects that can only come from `disconnect_dev_endpoint c` within a
switch tick whose old target is `c` and whose new target differs from
`c`: touching endpoint `c`, stopping the tunnel, or the "disconnected"
observability tag. -/
def isDiscEffect (c : String) : Event → Bool
  | .stopTunnel => true
  | .addTags v => v == "disconnected"
  | .updateDeleteKeys n _ => n == c
  | .getDevEndpoint n => n == c
  | _ => false

/-- A healthy endpoint used for concrete runs. -/
def epD : DevEndpoint :=
  { publicKey := none, publicKeys := [], lastUpdateStatus := none,
    privateAddress := some "10.0.0.1", publicAddress := none }

/-- An endpoint carrying a foreign key that contains the notebook name. -/
def ep8 : DevEndpoint := { publicKeys := ["OTHER nb"] }

/-- An endpoint stuck in an in-progress update. -/
def epPending : DevEndpoint := { lastUpdateStatus := some "IN_PROGRESS" }

/-- An endpoint whose last update failed. -/
def epFailed : DevEndpoint := { lastUpdateStatus := some FAILED }

/-- A concrete healthy base state for concrete runs. -/
def s0 : St :=
  { notebookName := "nb", endpoints := [("ep", epD)], binding := none,
    tunnelOn := false, livyUp := true, connTag := none, glueTag := some "ep",
    pubKeyFile := none, autosshHostFile := "", freshKeyBody := "ssh-rsa K" }

/-- A concrete state whose binding (old target "a") differs from the
desired target "b". -/
def s5 : St :=
  { s0 with binding := some "a", glueTag := some "b", autosshHostFile := "h" }

/-- A concrete state in which every local I/O oracle fails. -/
def sBroken : St :=
  { s0 with
    binding := some "ep"
    bindingReadOk := false
    bindingWriteOk := false
    bindingRemoveOk := false
    keyReadOk := false
    hostReadOk := false
    tagWriteOk := false }

/-! Run-unfolding lemmas for the monad primitives. -/

@[simp] theorem run_bind {α β : Type} (x : M α) (f : α → M β) (s : St) :
    (x >>= f) s = (match x s with
      | (.ok a, s1, t1) =>
        (match f a s1 with
         | (r, s2, t2) => (r, s2, t1 ++ t2))
      | (.error e, s1, t1) => (.error e, s1, t1)) := rfl

@[simp] theorem run_pure {α : Type} (a : α) (s : St) :
    (pure a : M α) s = (.ok a, s, []) := rfl

@[simp] theorem run_getS (s : St) : getS s = (.ok s, s, []) := rfl

@[simp] theorem run_modifyS (f : St → St) (s : St) :
    modifyS f s = (.ok (), f s, []) := rfl

@[simp] theorem run_throwE {α : Type} (e : Err) (s : St) :
    (throwE e : M α) s = (.error e, s, []) := rfl

@[simp] theorem run_emit (e : Event) (s : St) :
    emit e s = (.ok (), s, [e]) := rfl

@[simp] theorem run_catchAll {α : Type} (x : M α) (h : Err → M α) (s : St) :
    catchAll x h s = (match x s with
      | (.ok a, s1, t1) => (.ok a, s1, t1)
      | (.error e, s1, t1) =>
        (match h e s1 with
         | (r, s2, t2) => (r, s2, t1 ++ t2))) := rfl

/-! Auxiliary facts about the embedding. -/

theorem lookup_setEp : ∀ (eps : List (String × DevEndpoint)) (n : String)
    (d0 d1 : DevEndpoint), lookupEp eps n = some d0 →
    lookupEp (setEp eps n d1) n = some d1
  | [], n, d0, d1, h => by simp [lookupEp] at h
  | (m, d) :: t, n, d0, d1, h => by
    by_cases hp : m = n
    · subst hp
      have hse : setEp ((m, d) :: t) m d1 = (m, d1) :: setEp t m d1 := by
        simp [setEp]
      rw [hse]
      simp [lookupEp]
    · have hse : setEp ((m, d) :: t) n d1 = (m, d) :: setEp t n d1 := by
        simp [setEp, hp]
      rw [hse]
      have h2 : lookupEp t n = some d0 := by
        simpa [lookupEp, hp] using h
      simp [lookupEp, hp, lookup_setEp t n d0 d1 h2]

theorem pyInL_append_self (pre n : List Char) : pyInL n (pre ++ n) = true := by
  induction pre with
  | nil =>
    cases n with
    | nil => rfl
    | cons c t => simp [pyInL, List.isPrefixOf_iff_prefix]
  | cons c pre2 ih => simp [pyInL, ih]

theorem pyIn_append_self (x y : String) : pyIn y (x ++ y) = true := by
  have hd : (x ++ y).data = x.data ++ y.data := String.data_append x y
  simp [pyIn, hd, pyInL_append_self]

theorem pyTruthyS_append_space (x y : String) :
    pyTruthyS (x ++ " " ++ y) = true := by
  have hd : (x ++ " " ++ y).data = (x.data ++ [' ']) ++ y.data := by
    have h1 : (x ++ " ").data = x.data ++ [' '] := String.data_append x " "
    have h2 : (x ++ " " ++ y).data = (x ++ " ").data ++ y.data :=
      String.data_append (x ++ " ") y
    rw [h2, h1]
  simp [pyTruthyS, hd]

theorem contains_eq_false_of_clean (nb key : String) (ks : List String)
    (hkey : pyIn nb key = true)
    (hclean : ∀ k ∈ ks, pyIn nb k = false) :
    ks.contains key = false := by
  cases hc : ks.contains key with
  | false => rfl
  | true =>
    exfalso
    have hmem : key ∈ ks := List.elem_iff.mp hc
    have hfalse := hclean key hmem
    rw [hkey] at hfalse
    exact Bool.noConfusion hfalse

/-! Behavior of each operation on its main paths. -/

theorem wait_ready_none : wait_dev_endpoint_ready (fun _ => none) = .ready := rfl

theorem get_dev_endpoint_ok (n : String) (s : St) (d : DevEndpoint)
    (h : lookupEp s.endpoints n = some d) :
    get_dev_endpoint n s = (.ok d, s, [.getDevEndpoint n]) := by
  simp [get_dev_endpoint, h]

theorem wait_st_ok (n : String) (s : St) (d : DevEndpoint)
    (h : lookupEp s.endpoints n = some d) (hst : d.lastUpdateStatus = none) :
    wait_dev_endpoint_ready_st n s = (.ok (), s, [.getDevEndpoint n]) := by
  simp [wait_dev_endpoint_ready_st, get_dev_endpoint_ok n s d h, hst, wait_ready_none]

theorem delete_if_has_clean (n : String) (s : St) (d : DevEndpoint)
    (h : lookupEp s.endpoints n = some d)
    (hst : d.lastUpdateStatus = none)
    (hsel : public_keys_to_delete s.notebookName d = []) :
    delete_public_keys_if_has n s =
      (.ok (), s, [.getDevEndpoint n, .getDevEndpoint n]) := by
  simp [delete_public_keys_if_has, get_dev_endpoint_ok n s d h, hsel,
        delete_public_keys, wait_st_ok n s d h hst]

theorem delete_if_has_one (n : String) (s : St) (d : DevEndpoint) (key : String)
    (h : lookupEp s.endpoints n = some d)
    (hst : d.lastUpdateStatus = none)
    (hsel : public_keys_to_delete s.notebookName d = [key]) :
    delete_public_keys_if_has n s =
      (.ok (),
       { s with endpoints := setEp s.endpoints n (deleteKeysRemote d [key]) },
       [.getDevEndpoint n, .getDevEndpoint n, .updateDeleteKeys n [key],
        .getDevEndpoint n]) := by
  have hst2 : (deleteKeysRemote d [key]).lastUpdateStatus = none := hst
  have hlk2 : lookupEp
      (setEp s.endpoints n (deleteKeysRemote d [key])) n =
      some (deleteKeysRemote d [key]) := lookup_setEp _ n d _ h
  simp [delete_public_keys_if_has, delete_public_keys,
        update_dev_endpoint_delete, get_dev_endpoint_ok, wait_st_ok,
        h, hsel, hst, hlk2, hst2]

theorem generate_fresh (s : St) (hpf : s.pubKeyFile = none)
    (hkg : s.keygenOk = true) (hkr : s.keyReadOk = true) :
    generate_ssh_keypair s =
      (.ok (),
       { s with pubKeyFile := some (s.freshKeyBody ++ " " ++ s.notebookName) },
       [.keygen]) := by
  simp [generate_ssh_keypair, hpf, hkg, hkr, get_public_key,
        pyTruthyS_append_space]

theorem get_public_key_ok (s : St) (k : String) (hk : s.pubKeyFile = some k)
    (hkr : s.keyReadOk = true) (hkt : pyTruthyS k = true) :
    get_public_key s = (.ok k, s, []) := by
  simp [get_public_key, hk, hkr, hkt]

theorem add_public_key_ok (n : String) (s : St) (d : DevEndpoint) (k a : String)
    (hk : s.pubKeyFile = some k) (hkr : s.keyReadOk = true)
    (hkt : pyTruthyS k = true)
    (h : lookupEp s.endpoints n = some d) (hst : d.lastUpdateStatus = none)
    (hpa : d.privateAddress = some a) (hw : s.hostWriteOk = true) :
    add_public_key n s =
      (.ok (),
       { s with endpoints := setEp s.endpoints n (addKeysRemote d [k]),
                autosshHostFile := a },
       [.getDevEndpoint n, .updateAddKeys n [k], .getDevEndpoint n,
        .getDevEndpoint n, .writeAutosshHost a]) := by
  have hst2 : (addKeysRemote d [k]).lastUpdateStatus = none := hst
  have hpa2 : (addKeysRemote d [k]).privateAddress = some a := hpa
  have hlk2 : lookupEp (setEp s.endpoints n (addKeysRemote d [k])) n =
      some (addKeysRemote d [k]) := lookup_setEp _ n d _ h
  simp [add_public_key, get_public_key_ok, update_dev_endpoint_add,
        get_dev_endpoint_ok, wait_st_ok, hk, hkr, hkt, h, hst, hpa, hw,
        hlk2, hst2, hpa2]

theorem start_autossh_ok (s : St) (hr : s.hostReadOk = true)
    (ht : pyTruthyS s.autosshHostFile = true) :
    start_autossh s = (.ok (), { s with tunnelOn := true }, [.startTunnel]) := by
  simp [start_autossh, get_autossh_host, hr, ht]

theorem stop_autossh_ok (s : St) (hr : s.hostReadOk = true)
    (ht : pyTruthyS s.autosshHostFile = true) :
    stop_autossh s = (.ok (), { s with tunnelOn := false }, [.stopTunnel]) := by
  simp [stop_autossh, get_autossh_host, hr, ht]

theorem ping_livy_ok (s : St) (h : s.livyUp = true) :
    ping_livy s = (.ok (), s, [.pingLivy]) := by
  simp [ping_livy, h]

theorem save_ok (n : String) (s : St) (h : s.bindingWriteOk = true) :
    save_current_dev_endpoint n s =
      (.ok (), { s with binding := some n }, [.saveBinding n]) := by
  simp [save_current_dev_endpoint, h]

theorem tag_ok (v : String) (s : St) (h : s.tagWriteOk = true) :
    update_connection_tag v s =
      (.ok (), { s with connTag := some v }, [.addTags v]) := by
  simp [update_connection_tag, h]

theorem connect_ok (X : String) (s : St) (d : DevEndpoint) (a : String)
    (h : lookupEp s.endpoints X = some d) (hpk : d.publicKey = none)
    (hst : d.lastUpdateStatus = none) (hpa : d.privateAddress = some a)
    (hat : pyTruthyS a = true)
    (hclean : ∀ k ∈ d.publicKeys, pyIn s.notebookName k = false)
    (hpf : s.pubKeyFile = none) (hkg : s.keygenOk = true)
    (hkr : s.keyReadOk = true) (hhr : s.hostReadOk = true)
    (hhw : s.hostWriteOk = true) (hbw : s.bindingWriteOk = true)
    (htw : s.tagWriteOk = true) (hlv : s.livyUp = true) :
    connect_dev_endpoint X s =
      (.ok (),
       { s with
         pubKeyFile := some (s.freshKeyBody ++ " " ++ s.notebookName),
         endpoints := setEp s.endpoints X
           (addKeysRemote d [s.freshKeyBody ++ " " ++ s.notebookName]),
         autosshHostFile := a,
         tunnelOn := true,
         binding := some X,
         connTag := some "ready" },
       [.getDevEndpoint X, .getDevEndpoint X, .keygen,
        .getDevEndpoint X, .updateAddKeys X [s.freshKeyBody ++ " " ++ s.notebookName],
        .getDevEndpoint X, .getDevEndpoint X, .writeAutosshHost a,
        .startTunnel, .pingLivy, .saveBinding X, .addTags "ready"]) := by
  have hsel : public_keys_to_delete s.notebookName d = [] := by
    simp [public_keys_to_delete, hpk, List.filter_eq_nil_iff]
    intro k hk
    simp [hclean k hk]
  simp [connect_dev_endpoint, delete_if_has_clean, generate_fresh,
        add_public_key_ok, start_autossh_ok, ping_livy_ok, save_ok, tag_ok,
        h, hst, hpa, hat, hsel, hpf, hkg, hkr, hhr, hhw, hbw, htw, hlv,
        pyTruthyS_append_space]

theorem disconnect_after (X : String) (s : St) (d1 : DevEndpoint) (key : String)
    (h : lookupEp s.endpoints X = some d1)
    (hst : d1.lastUpdateStatus = none)
    (hsel : public_keys_to_delete s.notebookName d1 = [key])
    (hhr : s.hostReadOk = true) (hat : pyTruthyS s.autosshHostFile = true)
    (htw : s.tagWriteOk = true) :
    disconnect_dev_endpoint X s =
      (.ok (),
       { s with endpoints := setEp s.endpoints X (deleteKeysRemote d1 [key]),
                tunnelOn := false,
                connTag := some "disconnected" },
       [.getDevEndpoint X, .getDevEndpoint X, .updateDeleteKeys X [key],
        .getDevEndpoint X, .stopTunnel, .addTags "disconnected"]) := by
  simp [disconnect_dev_endpoint, delete_if_has_one, stop_autossh_ok, tag_ok,
        h, hst, hsel, hhr, hat, htw]


/-- C1 (amended): connecting to X and then disconnecting from X removes
the notebook's key (and every key containing the notebook name) from X's
registered public keys, but leaves the binding file set to X:
`disconnect_dev_endpoint` never deletes the binding record — only the
switch reconciler's `remove_dev_endpoint` does, before it calls
disconnect. -/
theorem c1_amended (s : St) (X : String) (d : DevEndpoint) (a : String)
    (h : lookupEp s.endpoints X = some d) (hpk2 : d.publicKey = none)
    (hst : d.lastUpdateStatus = none) (hpa : d.privateAddress = some a)
    (hat : pyTruthyS a = true)
    (hclean : ∀ k ∈ d.publicKeys, pyIn s.notebookName k = false)
    (hpf : s.pubKeyFile = none) (hkg : s.keygenOk = true)
    (hkr : s.keyReadOk = true) (hhr : s.hostReadOk = true)
    (hhw : s.hostWriteOk = true) (hbw : s.bindingWriteOk = true)
    (htw : s.tagWriteOk = true) (hlv : s.livyUp = true) :
    ∃ s2 t d2,
      (do
        connect_dev_endpoint X
        disconnect_dev_endpoint X) s = (.ok (), s2, t) ∧
      s2.binding = some X ∧
      lookupEp s2.endpoints X = some d2 ∧
      d2.publicKey = none ∧
      (∀ k ∈ d2.publicKeys, pyIn s.notebookName k = false) ∧
      pyIn s.notebookName (s.freshKeyBody ++ " " ++ s.notebookName) = true ∧
      (s.freshKeyBody ++ " " ++ s.notebookName) ∉ d2.publicKeys := by
  have hK1 : pyIn s.notebookName (s.freshKeyBody ++ " " ++ s.notebookName) = true :=
    pyIn_append_self (s.freshKeyBody ++ " ") s.notebookName
  have hK1mem : (s.freshKeyBody ++ " " ++ s.notebookName) ∉ d.publicKeys := by
    intro hmem
    rw [hclean _ hmem] at hK1
    exact Bool.noConfusion hK1
  have hd1keys : (addKeysRemote d [s.freshKeyBody ++ " " ++ s.notebookName]).publicKeys =
      d.publicKeys ++ [s.freshKeyBody ++ " " ++ s.notebookName] := by
    simp [addKeysRemote, List.filter, hK1mem]
  have hd1pk : (addKeysRemote d [s.freshKeyBody ++ " " ++ s.notebookName]).publicKey = none := hpk2
  have hd1st : (addKeysRemote d [s.freshKeyBody ++ " " ++ s.notebookName]).lastUpdateStatus = none := hst
  have hlk1 : lookupEp (setEp s.endpoints X
        (addKeysRemote d [s.freshKeyBody ++ " " ++ s.notebookName])) X =
      some (addKeysRemote d [s.freshKeyBody ++ " " ++ s.notebookName]) :=
    lookup_setEp _ X d _ h
  have hfd : List.filter (fun k => pyIn s.notebookName k) d.publicKeys = [] := by
    rw [List.filter_eq_nil_iff]
    intro k hk
    simp [hclean k hk]
  have hsel1 : public_keys_to_delete s.notebookName
      (addKeysRemote d [s.freshKeyBody ++ " " ++ s.notebookName]) =
      [s.freshKeyBody ++ " " ++ s.notebookName] := by
    simp [public_keys_to_delete, hd1pk, hd1keys, List.filter_append, hfd,
          List.filter, hK1]
  have hc := connect_ok X s d a h hpk2 hst hpa hat hclean hpf hkg hkr hhr hhw hbw htw hlv
  have hkeys2 : ∀ k ∈ (deleteKeysRemote
      (addKeysRemote d [s.freshKeyBody ++ " " ++ s.notebookName])
      [s.freshKeyBody ++ " " ++ s.notebookName]).publicKeys,
      pyIn s.notebookName k = false := by
    intro k hk
    simp only [deleteKeysRemote, hd1keys] at hk
    rw [List.mem_filter] at hk
    obtain ⟨hmem, hne⟩ := hk
    rw [List.mem_append] at hmem
    cases hmem with
    | inl hmem2 => exact hclean k hmem2
    | inr hmem2 =>
      exfalso
      simp at hmem2
      simp [hmem2] at hne
  refine ⟨{ s with
      endpoints := setEp (setEp s.endpoints X
          (addKeysRemote d [s.freshKeyBody ++ " " ++ s.notebookName])) X
        (deleteKeysRemote (addKeysRemote d [s.freshKeyBody ++ " " ++ s.notebookName])
          [s.freshKeyBody ++ " " ++ s.notebookName]),
      binding := some X,
      tunnelOn := false,
      connTag := some "disconnected",
      pubKeyFile := some (s.freshKeyBody ++ " " ++ s.notebookName),
      autosshHostFile := a },
    [.getDevEndpoint X, .getDevEndpoint X, .keygen, .getDevEndpoint X,
     .updateAddKeys X [s.freshKeyBody ++ " " ++ s.notebookName],
     .getDevEndpoint X, .getDevEndpoint X, .writeAutosshHost a,
     .startTunnel, .pingLivy, .saveBinding X, .addTags "ready",
     .getDevEndpoint X, .getDevEndpoint X,
     .updateDeleteKeys X [s.freshKeyBody ++ " " ++ s.notebookName],
     .getDevEndpoint X, .stopTunnel, .addTags "disconnected"],
    deleteKeysRemote
      (addKeysRemote d [s.freshKeyBody ++ " " ++ s.notebookName])
      [s.freshKeyBody ++ " " ++ s.notebookName], ?_, ?_, ?_, ?_, hkeys2, hK1, ?_⟩
  · show (connect_dev_endpoint X >>= fun _ => disconnect_dev_endpoint X) s = _
    simp [hc, disconnect_after, hlk1, hd1st, hsel1, hhr, hat, htw]
  · simp
  · show lookupEp (setEp (setEp s.endpoints X
        (addKeysRemote d [s.freshKeyBody ++ " " ++ s.notebookName])) X
        (deleteKeysRemote (addKeysRemote d [s.freshKeyBody ++ " " ++ s.notebookName])
          [s.freshKeyBody ++ " " ++ s.notebookName])) X = _
    exact lookup_setEp _ X _ _ hlk1
  · simp [deleteKeysRemote, hd1pk]
  · intro hmem
    have := hkeys2 _ hmem
    rw [hK1] at this
    exact Bool.noConfusion this


theorem ping_livy_down (s : St) (h : s.livyUp = false) :
    ping_livy s = (.error .connectionError, s, [.pingLivy]) := by
  simp [ping_livy, h]

/-- C2 (amended): nothing catches the liveness-probe failure inside
`connect_dev_endpoint`: when the tunnel is started and the probe fails,
connect raises the connection error and the binding file is left exactly
as it was — Binding is not persisted. -/
theorem c2_amended (s : St) (X : String) (d : DevEndpoint) (a : String)
    (h : lookupEp s.endpoints X = some d) (hpk2 : d.publicKey = none)
    (hst : d.lastUpdateStatus = none) (hpa : d.privateAddress = some a)
    (hat : pyTruthyS a = true)
    (hclean : ∀ k ∈ d.publicKeys, pyIn s.notebookName k = false)
    (hpf : s.pubKeyFile = none) (hkg : s.keygenOk = true)
    (hkr : s.keyReadOk = true) (hhr : s.hostReadOk = true)
    (hhw : s.hostWriteOk = true) (hlv : s.livyUp = false) :
    ∃ s2 t,
      connect_dev_endpoint X s = (.error .connectionError, s2, t) ∧
      s2.binding = s.binding := by
  have hfd : List.filter (fun k => pyIn s.notebookName k) d.publicKeys = [] := by
    rw [List.filter_eq_nil_iff]
    intro k hk
    simp [hclean k hk]
  have hsel : public_keys_to_delete s.notebookName d = [] := by
    simp [public_keys_to_delete, hpk2, hfd]
  refine ⟨{ s with
      pubKeyFile := some (s.freshKeyBody ++ " " ++ s.notebookName),
      endpoints := setEp s.endpoints X
        (addKeysRemote d [s.freshKeyBody ++ " " ++ s.notebookName]),
      autosshHostFile := a,
      tunnelOn := true },
    [.getDevEndpoint X, .getDevEndpoint X, .keygen, .getDevEndpoint X,
     .updateAddKeys X [s.freshKeyBody ++ " " ++ s.notebookName],
     .getDevEndpoint X, .getDevEndpoint X, .writeAutosshHost a,
     .startTunnel, .pingLivy], ?_, by simp⟩
  simp [connect_dev_endpoint, delete_if_has_clean, generate_fresh,
        add_public_key_ok, start_autossh_ok, ping_livy_down,
        h, hst, hpa, hat, hsel, hpf, hkg, hkr, hhr, hhw, hlv,
        pyTruthyS_append_space]

theorem wait_go_terminal (obs : Nat → Option String) :
    ∀ (i start fuel : Nat), i < fuel →
    (∀ j, j < i → isPendingStatus (obs (start + j)) = true) →
    (obs (start + i) = none ∨ obs (start + i) = some COMPLETED ∨
     obs (start + i) = some FAILED) →
    wait_go obs start fuel =
      (if obs (start + i) = some FAILED then .failedStatus else .ready) := by
  intro i
  induction i with
  | zero =>
    intro start fuel hlt _ hterm
    rw [Nat.add_zero] at hterm
    match fuel, hlt with
    | f + 1, _ =>
      rcases hterm with h0 | h0 | h0 <;>
        simp [wait_go, h0, COMPLETED, FAILED]
  | succ i2 ih =>
    intro start fuel hlt hpend hterm
    match fuel, hlt with
    | f + 1, hlt2 =>
      have hp0 : isPendingStatus (obs start) = true := by
        have := hpend 0 (Nat.succ_pos i2)
        simpa using this
      have hf : i2 < f := Nat.lt_of_succ_lt_succ hlt2
      have hpend2 : ∀ j, j < i2 → isPendingStatus (obs (start + 1 + j)) = true := by
        intro j hj
        have := hpend (j + 1) (Nat.succ_lt_succ hj)
        have harith : start + (j + 1) = start + 1 + j := by omega
        rwa [harith] at this
      have hterm2 : obs (start + 1 + i2) = none ∨
          obs (start + 1 + i2) = some COMPLETED ∨
          obs (start + 1 + i2) = some FAILED := by
        have harith : start + (i2 + 1) = start + 1 + i2 := by omega
        rwa [harith] at hterm
      have hrec := ih (start + 1) f hf hpend2 hterm2
      have harith : start + (i2 + 1) = start + 1 + i2 := by omega
      rw [harith]
      match hobs : obs start with
      | none => rw [hobs] at hp0; simp [isPendingStatus] at hp0
      | some st =>
        rw [hobs] at hp0
        simp [isPendingStatus] at hp0
        obtain ⟨hc, hfl⟩ := hp0
        simp [wait_go, hobs, hc, hfl, hrec]

theorem wait_go_all_pending (obs : Nat → Option String)
    (hpend : ∀ j, isPendingStatus (obs j) = true) :
    ∀ (fuel start : Nat), wait_go obs start fuel = .timedOut := by
  intro fuel
  induction fuel with
  | zero => intro start; rfl
  | succ f ih =>
    intro start
    have hp := hpend start
    match hobs : obs start with
    | none => rw [hobs] at hp; simp [isPendingStatus] at hp
    | some st =>
      rw [hobs] at hp
      simp [isPendingStatus] at hp
      obtain ⟨hc, hfl⟩ := hp
      simp [wait_go, hobs, hc, hfl, ih]

/-- C4: the ready-wait loop returns normally when the first terminal poll
observation is COMPLETED or an absent status field; it raises whenever a
poll inside the budget observes FAILED; and when every poll inside the
600 s / 5 s budget is still in progress it logs an error and returns
without raising (the world-model wrapper maps the timeout to a normal
return). -/
theorem c4_wait_outcomes :
    (∀ (obs : Nat → Option String) (i : Nat),
      i < UPDATE_DEV_ENDPOINT_TIMEOUT_IN_SEC / WAIT_DEV_ENDPOINT_READY_INTERVAL_IN_SEC →
      (∀ j, j < i → isPendingStatus (obs j) = true) →
      (obs i = none ∨ obs i = some COMPLETED) →
      wait_dev_endpoint_ready obs = .ready) ∧
    (∀ (obs : Nat → Option String) (i : Nat),
      i < UPDATE_DEV_ENDPOINT_TIMEOUT_IN_SEC / WAIT_DEV_ENDPOINT_READY_INTERVAL_IN_SEC →
      (∀ j, j < i → isPendingStatus (obs j) = true) →
      obs i = some FAILED →
      wait_dev_endpoint_ready obs = .failedStatus) ∧
    (∀ (obs : Nat → Option String),
      (∀ j, isPendingStatus (obs j) = true) →
      wait_dev_endpoint_ready obs = .timedOut) ∧
    (∀ (s : St) (n : String) (d : DevEndpoint),
      lookupEp s.endpoints n = some d →
      d.lastUpdateStatus = some FAILED →
      wait_dev_endpoint_ready_st n s =
        (.error .valueError, s, [.getDevEndpoint n])) ∧
    (∀ (s : St) (n : String) (d : DevEndpoint),
      lookupEp s.endpoints n = some d →
      isPendingStatus d.lastUpdateStatus = true →
      wait_dev_endpoint_ready_st n s =
        (.ok (), s, [.getDevEndpoint n, .logError "wait_ready_timeout"])) := by
  refine ⟨?_, ?_, ?_, ?_, ?_⟩
  · intro obs i hlt hpend hterm
    have hpend2 : ∀ j, j < i → isPendingStatus (obs (0 + j)) = true := by
      intro j hj; rw [Nat.zero_add]; exact hpend j hj
    have hterm2 : obs (0 + i) = none ∨ obs (0 + i) = some COMPLETED ∨
        obs (0 + i) = some FAILED := by
      rw [Nat.zero_add]
      rcases hterm with h | h
      · exact Or.inl h
      · exact Or.inr (Or.inl h)
    have := wait_go_terminal obs i 0 _ hlt hpend2 hterm2
    rw [wait_dev_endpoint_ready, this]
    rw [Nat.zero_add]
    rcases hterm with h | h <;> simp [h, COMPLETED, FAILED]
  · intro obs i hlt hpend hF
    have hpend2 : ∀ j, j < i → isPendingStatus (obs (0 + j)) = true := by
      intro j hj; rw [Nat.zero_add]; exact hpend j hj
    have hterm2 : obs (0 + i) = none ∨ obs (0 + i) = some COMPLETED ∨
        obs (0 + i) = some FAILED := by
      rw [Nat.zero_add]; exact Or.inr (Or.inr hF)
    have := wait_go_terminal obs i 0 _ hlt hpend2 hterm2
    rw [wait_dev_endpoint_ready, this]
    rw [Nat.zero_add]
    simp [hF]
  · intro obs hpend
    exact wait_go_all_pending obs hpend _ _
  · intro s n d h hF
    have hw : wait_dev_endpoint_ready (fun _ => d.lastUpdateStatus) = .failedStatus := by
      rw [show wait_dev_endpoint_ready (fun _ => d.lastUpdateStatus) =
          wait_go (fun _ => d.lastUpdateStatus) 0
            (UPDATE_DEV_ENDPOINT_TIMEOUT_IN_SEC /
              WAIT_DEV_ENDPOINT_READY_INTERVAL_IN_SEC) from rfl]
      have h120 : UPDATE_DEV_ENDPOINT_TIMEOUT_IN_SEC /
          WAIT_DEV_ENDPOINT_READY_INTERVAL_IN_SEC = 119 + 1 := by decide
      rw [h120]
      simp [wait_go, hF, COMPLETED, FAILED]
    simp [wait_dev_endpoint_ready_st, get_dev_endpoint_ok, h, hw]
  · intro s n d h hp
    have hw : wait_dev_endpoint_ready (fun _ => d.lastUpdateStatus) = .timedOut :=
      wait_go_all_pending (fun _ => d.lastUpdateStatus) (fun _ => hp) _ _
    simp [wait_dev_endpoint_ready_st, get_dev_endpoint_ok, h, hw]

/-- C5: in every switch tick whose read binding `c` is set, truthy and
differs from the desired target, every disconnect effect in the tick trace
is strictly preceded by the removal of the binding file; the clear never
happens after or during the disconnect call. -/
theorem c5_clear_before_disconnect (s : St) (c latest : String)
    (hb : s.binding = some c) (hbr : s.bindingReadOk = true)
    (hct : pyTruthyS c = true) (hg : s.glueTag = some latest)
    (hne : c ≠ latest) :
    ∀ j e, (runTr switch_tick s).get? j = some e →
      isDiscEffect c e = true →
      ∃ i, i < j ∧ (runTr switch_tick s).get? i = some (.removeBinding c) := by
  have hfals : pyFalsy (some c) = false := by
    simp [pyFalsy, pyTruthyS] at hct ⊢
    exact hct
  match hrm : s.bindingRemoveOk with
  | true =>
    intro j e hj hd
    simp [runTr, switch_tick, get_current_dev_endpoint,
      get_latest_dev_endpoint, remove_dev_endpoint,
      hb, hbr, hg, hrm, hfals, hne] at hj ⊢
    match j with
    | 0 =>
      simp at hj
      rw [← hj] at hd
      simp [isDiscEffect] at hd
    | 1 =>
      simp at hj
      rw [← hj] at hd
      simp [isDiscEffect] at hd
    | n + 2 =>
      refine ⟨1, by omega, ?_⟩
      simp
  | false =>
    intro j e hj hd
    simp [runTr, switch_tick, get_current_dev_endpoint,
      get_latest_dev_endpoint, remove_dev_endpoint,
      hb, hbr, hg, hrm, hfals, hne] at hj
    match j with
    | 0 =>
      simp at hj
      rw [← hj] at hd
      simp [isDiscEffect] at hd
    | 1 =>
      simp at hj
      rw [← hj] at hd
      simp [isDiscEffect] at hd
    | n + 2 => simp at hj

theorem switch_tick_no_tag (s : St) (h : s.glueTag = none) :
    ∃ t, switch_tick s = (.error .valueError, s, t) := by
  unfold switch_tick get_current_dev_endpoint get_latest_dev_endpoint
  match hb : s.binding with
  | none => exact ⟨[.listTags], by simp [hb, h]⟩
  | some c =>
    match hr : s.bindingReadOk with
    | false =>
      exact ⟨[.logWarn "get_current_dev_endpoint", .listTags], by simp [hb, hr, h]⟩
    | true => exact ⟨[.listTags], by simp [hb, hr, h]⟩

theorem daemon_iter_all_fail (tick : M Unit) (maxFail : Nat) (s0 : St)
    (hf : ∃ t, tick s0 = (.error .valueError, s0, t)) :
    ∀ n, n ≤ maxFail → daemon_iter tick maxFail s0 n = some (s0, n) := by
  intro n
  induction n with
  | zero => intro _; rfl
  | succ k ih =>
    intro hk
    have hk2 : k ≤ maxFail := Nat.le_of_succ_le hk
    have hlt : k < maxFail := Nat.lt_of_succ_le hk
    obtain ⟨t, ht⟩ := hf
    simp [daemon_iter, ih hk2, hlt, ht]

theorem daemon_iter_halt (tick : M Unit) (maxFail : Nat) (s0 : St)
    (h : daemon_iter tick maxFail s0 maxFail = some (s0, maxFail)) :
    daemon_iter tick maxFail s0 (maxFail + 1) = none := by
  simp [daemon_iter, h]

theorem daemon_iter_step (tick : M Unit) (maxFail : Nat) (s0 : St) (n : Nat)
    (s : St) (fc : Nat) (h : daemon_iter tick maxFail s0 n = some (s, fc))
    (hlt : fc < maxFail) :
    daemon_iter tick maxFail s0 (n + 1) =
      some (runSt tick s, if isOkB (runRes tick s) then 0 else fc + 1) := by
  match ht : tick s with
  | (.ok a, s1, t1) =>
    simp [daemon_iter, h, hlt, ht, runSt, runRes, isOkB]
  | (.error e2, s1, t1) =>
    simp [daemon_iter, h, hlt, ht, runSt, runRes, isOkB]

/-- C6: for both daemon loops, a tick that raises is caught at the loop
boundary, increments the failure counter by exactly one and the loop goes
on; a tick that completes resets the counter to zero. -/
theorem c6_tick_failure_counting :
    (∀ (s0 : St) (n : Nat) (s : St) (fc : Nat),
      switch_daemon s0 n = some (s, fc) → fc < SWITCH_MAX_FAIL_COUNT →
      switch_daemon s0 (n + 1) =
        some (runSt switch_tick s,
          if isOkB (runRes switch_tick s) then 0 else fc + 1)) ∧
    (∀ (s0 : St) (n : Nat) (s : St) (fc : Nat),
      reconnect_daemon s0 n = some (s, fc) → fc < RECONNECT_MAX_FAIL_COUNT →
      reconnect_daemon s0 (n + 1) =
        some (runSt reconnect_tick s,
          if isOkB (runRes reconnect_tick s) then 0 else fc + 1)) := by
  constructor
  · intro s0 n s fc h hlt
    exact daemon_iter_step switch_tick SWITCH_MAX_FAIL_COUNT s0 n s fc h hlt
  · intro s0 n s fc h hlt
    exact daemon_iter_step reconnect_tick RECONNECT_MAX_FAIL_COUNT s0 n s fc h hlt

/-- C3: the circuit-breaker thresholds equal
maxFailHours * 3600 / tickIntervalSeconds — 5760 for the switch
reconciler and 576 for the reconnect reconciler — and with every tick
failing the switch loop is still alive after each of the first 5760
ticks and has exited at tick 5761: it halts exactly after 5760
consecutive failing ticks. -/
theorem c3_circuit_breaker :
    SWITCH_MAX_FAIL_COUNT =
      MAX_FAIL_DURATION_IN_HOUR * HOUR_IN_SEC / SWITCH_INTERVAL_IN_SEC ∧
    SWITCH_MAX_FAIL_COUNT = 5760 ∧
    RECONNECT_MAX_FAIL_COUNT =
      MAX_FAIL_DURATION_IN_HOUR * HOUR_IN_SEC / RECONNECT_INTERVAL_IN_SEC ∧
    RECONNECT_MAX_FAIL_COUNT = 576 ∧
    (∀ s : St, s.glueTag = none →
      (∀ n, n ≤ SWITCH_MAX_FAIL_COUNT → switch_daemon s n = some (s, n)) ∧
      switch_daemon s (SWITCH_MAX_FAIL_COUNT + 1) = none) := by
  refine ⟨by decide, by decide, by decide, by decide, ?_⟩
  intro s hg
  have halive : ∀ n, n ≤ SWITCH_MAX_FAIL_COUNT → switch_daemon s n = some (s, n) :=
    daemon_iter_all_fail switch_tick SWITCH_MAX_FAIL_COUNT s
      (switch_tick_no_tag s hg)
  refine ⟨halive, ?_⟩
  exact daemon_iter_halt switch_tick SWITCH_MAX_FAIL_COUNT s
    (halive SWITCH_MAX_FAIL_COUNT (Nat.le_refl _))

/-- C7: when the liveness probe succeeds, a reconnect tick finishes
normally, leaves the entire world state (binding file included)
unchanged, and its trace holds no mutation: no endpoint update, no tag
write, no tunnel stop or start. -/
theorem c7_reconnect_noop_when_live (s : St) (h : s.livyUp = true) :
    ∃ t, reconnect_tick s = (.ok (), s, t) ∧ ∀ e ∈ t, isMutEvent e = false := by
  unfold reconnect_tick get_current_dev_endpoint reconnect_dev_endpoint
  match hb : s.binding with
  | none =>
    refine ⟨[.logWarn "current_dev_endpoint_absent"], ?_, ?_⟩
    · simp [hb, pyFalsy]
    · simp [isMutEvent]
  | some c =>
    match hr : s.bindingReadOk with
    | false =>
      refine ⟨[.logWarn "get_current_dev_endpoint",
               .logWarn "current_dev_endpoint_absent"], ?_, ?_⟩
      · simp [hb, hr, pyFalsy]
      · simp [isMutEvent]
    | true =>
      match he : c.data.isEmpty with
      | true =>
        refine ⟨[.logWarn "current_dev_endpoint_absent"], ?_, ?_⟩
        · simp [hb, hr, pyFalsy, he]
        · simp [isMutEvent]
      | false =>
        refine ⟨[.pingLivy], ?_, ?_⟩
        · simp [hb, hr, pyFalsy, he, is_dev_endpoint_connected, h]
        · simp [isMutEvent]

/-- C8 (amended): the two ownership rules differ.  The key-deletion
filter selects exactly the singular key plus the plural keys containing
the notebook name, while `has_public_key` reports a key present exactly
when some registered key contains the notebook's full current public key
string — not the notebook name. -/
theorem c8_matching_rules (s : St) (d : DevEndpoint) (ck : String)
    (hk : s.pubKeyFile = some ck) (hkr : s.keyReadOk = true)
    (hkt : pyTruthyS ck = true) :
    (resVal (runRes (has_public_key d) s) = some true ↔
      ((∃ pk, d.publicKey = some pk ∧ pyIn ck pk = true) ∨
       (∃ k ∈ d.publicKeys, pyIn ck k = true))) ∧
    (∀ k, k ∈ public_keys_to_delete s.notebookName d ↔
      (d.publicKey = some k ∨
       (k ∈ d.publicKeys ∧ pyIn s.notebookName k = true))) := by
  have hg := get_public_key_ok s ck hk hkr hkt
  constructor
  · match hpk : d.publicKey with
    | some pk =>
      by_cases hp : pyIn ck pk = true
      · simp [has_public_key, runRes, resVal, hg, hpk, hp]
      · simp [has_public_key, runRes, resVal, hg, hpk, hp,
              List.any_eq_true]
    | none =>
      simp [has_public_key, runRes, resVal, hg, hpk, List.any_eq_true]
  · intro k
    match hpk : d.publicKey with
    | some pk =>
      simp [public_keys_to_delete, hpk, List.mem_filter]
      constructor
      · rintro (h2 | h2)
        · exact Or.inl h2.symm
        · exact Or.inr h2
      · rintro (h2 | h2)
        · exact Or.inl h2.symm
        · exact Or.inr h2
    | none =>
      simp [public_keys_to_delete, hpk, List.mem_filter]

/-- C9 (amended): binding-file writes and removals and key- and
host-file reads log and re-raise their IOError; the observability-tag
write swallows every failure; and the binding-file read also swallows its
IOError, logging a warning and returning the unbound result instead of
propagating. -/
theorem c9_local_io_policy :
    (∀ (s : St) (n : String), s.bindingWriteOk = false →
      save_current_dev_endpoint n s =
        (.error .ioError, s, [.logError "save_current_dev_endpoint"])) ∧
    (∀ (s : St) (n : String), s.bindingRemoveOk = false →
      s.binding.isSome = true →
      remove_dev_endpoint n s =
        (.error .ioError, s, [.logError "remove_dev_endpoint"])) ∧
    (∀ s : St, s.keyReadOk = false →
      get_public_key s = (.error .ioError, s, [.logError "get_public_key"])) ∧
    (∀ s : St, s.hostReadOk = false →
      get_autossh_host s =
        (.error .ioError, s, [.logError "get_autossh_host"])) ∧
    (∀ (s : St) (v : String), s.tagWriteOk = false →
      update_connection_tag v s =
        (.ok (), s, [.logError "update_connection_tag"])) ∧
    (∀ s : St, s.bindingReadOk = false → s.binding.isSome = true →
      get_current_dev_endpoint s =
        (.ok none, s, [.logWarn "get_current_dev_endpoint"])) := by
  refine ⟨?_, ?_, ?_, ?_, ?_, ?_⟩
  · intro s n h
    simp [save_current_dev_endpoint, h]
  · intro s n h hb
    simp [remove_dev_endpoint, h, hb]
  · intro s h
    simp [get_public_key, h]
  · intro s h
    simp [get_autossh_host, h]
  · intro s v h
    simp [update_connection_tag, h]
  · intro s h hb
    match hbv : s.binding with
    | some v => simp [get_current_dev_endpoint, h, hbv]
    | none => rw [hbv] at hb; simp at hb

/-- C10: a key is scheduled for deletion exactly when it is the value of
the singular PublicKey field (no containment filter applied) or it is a
plural PublicKeys entry containing the notebook name. -/
theorem c10_delete_selection_rule (nb : String) (d : DevEndpoint) (k : String) :
    k ∈ public_keys_to_delete nb d ↔
      (d.publicKey = some k ∨
       (k ∈ d.publicKeys ∧ pyIn nb k = true)) := by
  match hpk : d.publicKey with
  | some pk =>
    simp [public_keys_to_delete, hpk, List.mem_filter]
    constructor
    · rintro (h2 | h2)
      · exact Or.inl h2.symm
      · exact Or.inr h2
    · rintro (h2 | h2)
      · exact Or.inl h2.symm
      · exact Or.inr h2
  | none =>
    simp [public_keys_to_delete, hpk, List.mem_filter]

/-- C1 counterexample: from the healthy concrete state, connect "ep" then
disconnect "ep" completes normally yet leaves the binding file set to
"ep", not unset — disconnect does not delete the Binding record. -/
theorem c1_counterexample :
    isOkB (runRes (do
      connect_dev_endpoint "ep"
      disconnect_dev_endpoint "ep") s0) = true ∧
    (runSt (do
      connect_dev_endpoint "ep"
      disconnect_dev_endpoint "ep") s0).binding = some "ep" := by
  decide

/-- C2 counterexample: with the Livy probe failing, connect "ep" raises
(the probe failure is fatal, not a logged warning) and the binding file is
never written. -/
theorem c2_counterexample :
    isOkB (runRes (connect_dev_endpoint "ep")
      { s0 with livyUp := false }) = false ∧
    (runSt (connect_dev_endpoint "ep")
      { s0 with livyUp := false }).binding = none := by
  decide

/-- C8 counterexample: the registered key "OTHER nb" contains the
notebook name "nb", so the deletion filter classifies it as this
notebook's key, yet `has_public_key` reports it as not present because it
does not contain the notebook's full current public key. -/
theorem c8_counterexample :
    s0.notebookName = "nb" ∧
    pyIn "nb" "OTHER nb" = true ∧
    "OTHER nb" ∈ public_keys_to_delete "nb" ep8 ∧
    "OTHER nb" ∈ ep8.publicKeys ∧
    resVal (runRes (has_public_key ep8)
      { s0 with pubKeyFile := some "KEY nb" }) = some false := by
  decide

/-- C9 counterexample: with the binding file present but unreadable,
`get_current_dev_endpoint` does not re-raise the IOError: it returns
normally with the unbound result. -/
theorem c9_counterexample :
    sBroken.binding = some "ep" ∧
    sBroken.bindingReadOk = false ∧
    isOkB (runRes get_current_dev_endpoint sBroken) = true ∧
    resVal (runRes get_current_dev_endpoint sBroken) = some none := by
  decide

/-- C1 witness: the amended connect-then-disconnect theorem instantiated
at the healthy concrete state. -/
theorem c1_amended_witness :
    lookupEp s0.endpoints "ep" = some epD ∧
    s0.livyUp = true ∧
    (∃ s2 t d2,
      (do
        connect_dev_endpoint "ep"
        disconnect_dev_endpoint "ep") s0 = (.ok (), s2, t) ∧
      s2.binding = some "ep" ∧
      lookupEp s2.endpoints "ep" = some d2 ∧
      d2.publicKey = none ∧
      (∀ k ∈ d2.publicKeys, pyIn s0.notebookName k = false) ∧
      pyIn s0.notebookName (s0.freshKeyBody ++ " " ++ s0.notebookName) = true ∧
      (s0.freshKeyBody ++ " " ++ s0.notebookName) ∉ d2.publicKeys) :=
  ⟨by decide, rfl,
   c1_amended s0 "ep" epD "10.0.0.1" (by decide) rfl rfl rfl (by decide)
     (by decide) rfl rfl rfl rfl rfl rfl rfl rfl⟩

/-- C2 witness: the amended probe-failure theorem instantiated at the
healthy concrete state with Livy down. -/
theorem c2_amended_witness :
    ({ s0 with livyUp := false } : St).livyUp = false ∧
    (∃ s2 t,
      connect_dev_endpoint "ep" { s0 with livyUp := false } =
        (.error .connectionError, s2, t) ∧
      s2.binding = ({ s0 with livyUp := false } : St).binding) :=
  ⟨rfl,
   c2_amended { s0 with livyUp := false } "ep" epD "10.0.0.1" (by decide)
     rfl rfl rfl (by decide) (by decide) rfl rfl rfl rfl rfl rfl⟩

/-- C3 witness: the circuit-breaker theorem applied to a concrete state
with no desired-target tag, sampled after 2 failing ticks and at the halt
point. -/
theorem c3_circuit_breaker_witness :
    ({ s0 with glueTag := none } : St).glueTag = none ∧
    switch_daemon { s0 with glueTag := none } 2 =
      some ({ s0 with glueTag := none }, 2) ∧
    switch_daemon { s0 with glueTag := none } (SWITCH_MAX_FAIL_COUNT + 1) =
      none :=
  ⟨rfl,
   (c3_circuit_breaker.2.2.2.2 { s0 with glueTag := none } rfl).1 2 (by decide),
   (c3_circuit_breaker.2.2.2.2 { s0 with glueTag := none } rfl).2⟩

/-- C4 witness: the ready-wait outcome theorem instantiated on constant
observation streams and on concrete FAILED and IN_PROGRESS endpoints. -/
theorem c4_wait_outcomes_witness :
    wait_dev_endpoint_ready (fun _ => none) = .ready ∧
    wait_dev_endpoint_ready (fun _ => some FAILED) = .failedStatus ∧
    wait_dev_endpoint_ready (fun _ => some "IN_PROGRESS") = .timedOut ∧
    wait_dev_endpoint_ready_st "ep" { s0 with endpoints := [("ep", epFailed)] } =
      (.error .valueError, { s0 with endpoints := [("ep", epFailed)] },
       [.getDevEndpoint "ep"]) ∧
    wait_dev_endpoint_ready_st "ep" { s0 with endpoints := [("ep", epPending)] } =
      (.ok (), { s0 with endpoints := [("ep", epPending)] },
       [.getDevEndpoint "ep", .logError "wait_ready_timeout"]) :=
  ⟨c4_wait_outcomes.1 (fun _ => none) 0 (by decide)
     (fun j hj => absurd hj (Nat.not_lt_zero j)) (Or.inl rfl),
   c4_wait_outcomes.2.1 (fun _ => some FAILED) 0 (by decide)
     (fun j hj => absurd hj (Nat.not_lt_zero j)) rfl,
   c4_wait_outcomes.2.2.1 (fun _ => some "IN_PROGRESS")
     (fun j => (by decide : isPendingStatus (some "IN_PROGRESS") = true)),
   c4_wait_outcomes.2.2.2.1 { s0 with endpoints := [("ep", epFailed)] }
     "ep" epFailed (by decide) rfl,
   c4_wait_outcomes.2.2.2.2 { s0 with endpoints := [("ep", epPending)] }
     "ep" epPending (by decide) (by decide)⟩

/-- C5 witness: in the concrete switch tick from binding "a" to target
"b", the tunnel stop at trace position 4 is preceded by the binding
removal. -/
theorem c5_clear_before_disconnect_witness :
    (runTr switch_tick s5).get? 4 = some .stopTunnel ∧
    isDiscEffect "a" Event.stopTunnel = true ∧
    (∃ i, i < 4 ∧ (runTr switch_tick s5).get? i = some (.removeBinding "a")) :=
  ⟨by decide, by decide,
   c5_clear_before_disconnect s5 "a" "b" rfl rfl (by decide) rfl (by decide)
     4 .stopTunnel (by decide) (by decide)⟩

/-- C6 witness: the failure-counting step applied to both daemons at the
healthy concrete state, from iteration 0 to iteration 1. -/
theorem c6_tick_failure_counting_witness :
    switch_daemon s0 1 =
      some (runSt switch_tick s0,
        if isOkB (runRes switch_tick s0) then 0 else 0 + 1) ∧
    reconnect_daemon s0 1 =
      some (runSt reconnect_tick s0,
        if isOkB (runRes reconnect_tick s0) then 0 else 0 + 1) :=
  ⟨c6_tick_failure_counting.1 s0 0 s0 0 rfl (by decide),
   c6_tick_failure_counting.2 s0 0 s0 0 rfl (by decide)⟩

/-- C7 witness: the no-op reconnect tick at the healthy concrete state
with the probe succeeding. -/
theorem c7_reconnect_noop_witness :
    s0.livyUp = true ∧
    (∃ t, reconnect_tick s0 = (.ok (), s0, t) ∧
      ∀ e ∈ t, isMutEvent e = false) :=
  ⟨rfl, c7_reconnect_noop_when_live s0 rfl⟩

/-- C8 witness: the two matching rules characterized on the concrete
endpoint holding the foreign key "OTHER nb". -/
theorem c8_matching_rules_witness :
    pyTruthyS "KEY nb" = true ∧
    ((resVal (runRes (has_public_key ep8)
        { s0 with pubKeyFile := some "KEY nb" }) = some true ↔
      ((∃ pk, ep8.publicKey = some pk ∧ pyIn "KEY nb" pk = true) ∨
       (∃ k ∈ ep8.publicKeys, pyIn "KEY nb" k = true))) ∧
     (∀ k, k ∈ public_keys_to_delete
         ({ s0 with pubKeyFile := some "KEY nb" } : St).notebookName ep8 ↔
       (ep8.publicKey = some k ∨
        (k ∈ ep8.publicKeys ∧
         pyIn ({ s0 with pubKeyFile := some "KEY nb" } : St).notebookName k
           = true)))) :=
  ⟨by decide,
   c8_matching_rules { s0 with pubKeyFile := some "KEY nb" } ep8 "KEY nb"
     rfl rfl (by decide)⟩

/-- C9 witness: the I/O-error policy instantiated at the concrete state
whose local I/O oracles all fail. -/
theorem c9_local_io_policy_witness :
    save_current_dev_endpoint "x" sBroken =
      (.error .ioError, sBroken, [.logError "save_current_dev_endpoint"]) ∧
    remove_dev_endpoint "ep" sBroken =
      (.error .ioError, sBroken, [.logError "remove_dev_endpoint"]) ∧
    get_public_key sBroken =
      (.error .ioError, sBroken, [.logError "get_public_key"]) ∧
    get_autossh_host sBroken =
      (.error .ioError, sBroken, [.logError "get_autossh_host"]) ∧
    update_connection_tag "ready" sBroken =
      (.ok (), sBroken, [.logError "update_connection_tag"]) ∧
    get_current_dev_endpoint sBroken =
      (.ok none, sBroken, [.logWarn "get_current_dev_endpoint"]) :=
  ⟨c9_local_io_policy.1 sBroken "x" rfl,
   c9_local_io_policy.2.1 sBroken "ep" rfl rfl,
   c9_local_io_policy.2.2.1 sBroken rfl,
   c9_local_io_policy.2.2.2.1 sBroken rfl,
   c9_local_io_policy.2.2.2.2.1 sBroken "ready" rfl,
   c9_local_io_policy.2.2.2.2.2 sBroken rfl rfl⟩
